import Mathlib

/-!
Shallow embedding of the ITA_Platform repository (Django project) for
specification verification.  Python/Django constructs are modelled as
plain Lean data and functions:

* Decimal amounts/prices become `ℚ` (Django `DecimalField` arithmetic on
  sums and comparisons is exact at these magnitudes);
* `DateField` values become a `Date` structure compared lexicographically;
* database tables become `List` of row structures, a row's `pk` is
  `Option Nat` (`none` = unsaved instance);
* `ValidationError` / `IntegrityError` raising code returns
  `Except DjangoError`, so "the write is not persisted on error" is by
  construction;
* queryset filters become `List.filter`.
-/

namespace ITA

/-- Calendar date, compared lexicographically (year, month, day),
matching Python `datetime.date` ordering. -/
structure Date where
  year : Nat
  month : Nat
  day : Nat
deriving DecidableEq, Repr

/-- `a < b` on dates, lexicographic, as Python compares `date` values. -/
def Date.lt (a b : Date) : Bool :=
  a.year < b.year ||
  (a.year == b.year && (a.month < b.month ||
    (a.month == b.month && a.day < b.day)))

/-- Errors raised by model-layer code: field-scoped `ValidationError`s
(from `clean`) and storage-layer `IntegrityError`s (unique constraints). -/
inductive DjangoError where
  | validation (field : String) (message : String)
  | integrity (message : String)
deriving DecidableEq, Repr

/-- The six user roles of `accounts/models.py` (`User.ROLE_CHOICES`). -/
inductive Role where
  | ADMIN | REGISTRAR | ACADEMIC | FINANCE | STUDENT | TUTOR
deriving DecidableEq, Repr

/-- The fields of `accounts.models.User` relevant to staff-flag and group
synchronisation. -/
structure User where
  pk : Nat
  role : Role
  is_active : Bool
  is_staff : Bool
  groups : List String
deriving DecidableEq, Repr

/-- `User.is_staff_member` from `accounts/models.py`:
role in ['ADMIN', 'REGISTRAR', 'ACADEMIC', 'FINANCE']. -/
def User.is_staff_member (u : User) : Bool :=
  u.role == Role.ADMIN || u.role == Role.REGISTRAR ||
  u.role == Role.ACADEMIC || u.role == Role.FINANCE

/-- The role → group-name mapping of `add_user_to_group`
(`accounts/signals.py`). -/
def role_group_mapping : Role → String
  | Role.ADMIN => "Admin"
  | Role.REGISTRAR => "Registrar"
  | Role.ACADEMIC => "Academic Staff"
  | Role.FINANCE => "Finance Staff"
  | Role.STUDENT => "Student"
  | Role.TUTOR => "Tutor"

/-- `add_user_to_group` post-save receiver (`accounts/signals.py`): clears
the user's groups and adds the group mapped from the role.  The guard
`created or instance.role` is always true here because `role` is one of
the six non-empty role constants. -/
def add_user_to_group (u : User) : User :=
  { u with groups := [role_group_mapping u.role] }

/-- `set_staff_status` post-save receiver (`accounts/signals.py`): when
the stored `is_staff` disagrees with role membership in the four staff
roles, the row is updated in place (a queryset `update`, which does not
re-fire signals). -/
def set_staff_status (u : User) : User :=
  let staff_roles := [Role.ADMIN, Role.REGISTRAR, Role.ACADEMIC, Role.FINANCE]
  let should_be_staff := staff_roles.contains u.role
  if u.is_staff != should_be_staff then
    { u with is_staff := should_be_staff }
  else
    u

/-- Saving a `User`: the row is written, then the two `post_save`
receivers registered in `accounts/signals.py` run synchronously in
registration order.  Returns the stored row after the signals. -/
def User.save (u : User) : User :=
  set_staff_status (add_user_to_group u)

/-- The three enrollment statuses (`Enrollment.STATUS_CHOICES`). -/
inductive EnrollmentStatus where
  | IN_PROGRESS | COMPLETED | CANCELLED
deriving DecidableEq, Repr

/-- The fields of `enrollments.models.Enrollment` used by the modelled
operations.  `student_role` carries `self.student.role` (the ORM
traversal `self.student.role` in `clean`). -/
structure Enrollment where
  pk : Option Nat
  student : Nat
  course : Nat
  student_role : Role
  enrollment_date : Date
  completion_date : Option Date
  status : EnrollmentStatus
  verified_by : Option Nat
deriving DecidableEq, Repr

/-- `Enrollment.clean` (`enrollments/models.py`): student must hold role
STUDENT; for a new row (`pk` absent) no non-CANCELLED enrollment for the
same (student, course) pair may exist; COMPLETED requires a completion
date; a completion date may not precede the enrollment date. -/
def Enrollment.clean (db : List Enrollment) (e : Enrollment) :
    Except DjangoError Unit :=
  if e.student_role ≠ Role.STUDENT then
    Except.error (DjangoError.validation "student"
      "Only users with STUDENT role can be enrolled.")
  else if e.pk = none ∧ db.any (fun x =>
      x.student == e.student && x.course == e.course &&
      x.status != EnrollmentStatus.CANCELLED) then
    Except.error (DjangoError.validation "course"
      "Student is already enrolled in this course.")
  else if e.status = EnrollmentStatus.COMPLETED ∧ e.completion_date = none then
    Except.error (DjangoError.validation "completion_date"
      "Completion date is required for completed enrollments.")
  else
    match e.completion_date with
    | some d =>
        if Date.lt d e.enrollment_date then
          Except.error (DjangoError.validation "completion_date"
            "Completion date cannot be before enrollment date.")
        else Except.ok ()
    | none => Except.ok ()

/-- `Enrollment.save` (`enrollments/models.py`) plus the storage layer:
`clean` runs first, then the row is written.  For a new row the insert is
subject to the `unique_together = ['student', 'course']` constraint of
`Enrollment.Meta`, which applies to every stored row regardless of
status; a violation surfaces as an `IntegrityError`.  An existing row is
updated in place. -/
def Enrollment.save (db : List Enrollment) (e : Enrollment) :
    Except DjangoError (List Enrollment × Enrollment) :=
  match Enrollment.clean db e with
  | Except.error err => Except.error err
  | Except.ok () =>
    match e.pk with
    | none =>
        if db.any (fun x => x.student == e.student && x.course == e.course) then
          Except.error (DjangoError.integrity
            "UNIQUE constraint failed: enrollments_enrollment.student_id, enrollments_enrollment.course_id")
        else
          Except.ok (db ++ [{ e with pk := some (db.length + 1) }],
            { e with pk := some (db.length + 1) })
    | some k =>
        Except.ok (db.map (fun x => if x.pk == some k then e else x), e)

/-- `Enrollment.mark_completed` (`enrollments/models.py`): rejects
already-COMPLETED and CANCELLED enrollments, otherwise sets status to
COMPLETED and completion date to today, records the verifier when one is
supplied, and saves (which re-runs `clean`). -/
def Enrollment.mark_completed (db : List Enrollment) (e : Enrollment)
    (today : Date) (verified_by : Option Nat) :
    Except DjangoError (List Enrollment × Enrollment) :=
  if e.status = EnrollmentStatus.COMPLETED then
    Except.error (DjangoError.validation "__all__"
      "Enrollment is already completed.")
  else if e.status = EnrollmentStatus.CANCELLED then
    Except.error (DjangoError.validation "__all__"
      "Cannot complete a cancelled enrollment.")
  else
    Enrollment.save db { e with
      status := EnrollmentStatus.COMPLETED
      completion_date := some today
      verified_by := match verified_by with
        | some v => some v
        | none => e.verified_by }

/-- The fields of `courses.models.Course` used by the modelled
operations.  `prerequisites` is the many-to-many prerequisite edge set,
stored as the ids of the prerequisite courses. -/
structure Course where
  pk : Nat
  title : String
  price : ℚ
  prerequisites : List Nat
deriving DecidableEq, Repr

/-- `Course.is_prerequisite_for` (`courses/models.py`): whether `self` is
a prerequisite of the given course
(`course.prerequisites.filter(id=self.id).exists()`). -/
def Course.is_prerequisite_for (self other : Course) : Bool :=
  other.prerequisites.contains self.pk

/-- The loop body of `validate_prerequisites` shared verbatim by
`CourseSerializer` and `CourseCreateUpdateSerializer`
(`courses/serializers.py`): the first offending proposed prerequisite
raises (self-prerequisite, then direct two-node cycle). -/
def validate_prereqs_loop (inst : Course) : List Course → Except String Unit
  | [] => Except.ok ()
  | p :: rest =>
      if p.pk = inst.pk then
        Except.error "A course cannot be its own prerequisite."
      else if inst.is_prerequisite_for p then
        Except.error ("Circular dependency: '" ++ p.title ++ "' already has '"
          ++ inst.title ++ "' as a prerequisite.")
      else validate_prereqs_loop inst rest

/-- `validate_prerequisites` (`courses/serializers.py`): on update
(`self.instance` present) every proposed prerequisite is checked; on
create (`self.instance` is `None`, the course row does not exist yet) the
body is skipped and the value accepted unchanged. -/
def validate_prerequisites (self_instance : Option Course)
    (value : List Course) : Except String (List Course) :=
  match self_instance with
  | some inst =>
      match validate_prereqs_loop inst value with
      | Except.error s => Except.error s
      | Except.ok () => Except.ok value
  | none => Except.ok value

/-- Zero-padded decimal rendering, Python's `{n:0Nd}` format. -/
def padZero (width n : Nat) : String :=
  let s := toString n
  String.mk (List.replicate (width - s.length) '0') ++ s

/-- The fields of `payments.models.Payment` used by the modelled
operations. -/
structure Payment where
  pk : Option Nat
  enrollment : Nat
  amount : ℚ
  payment_date : Date
  receipt_number : Option String
deriving DecidableEq, Repr

/-- Sum of the amounts of the stored payments linked to an enrollment
(the aggregate behind `Payment.get_total_paid_for_enrollment` and the
`sum(p.amount for p in existing_payments)` in `Payment.clean`). -/
def enrollmentTotal (db : List Payment) (eid : Nat) : ℚ :=
  ((db.filter (fun q => q.enrollment == eid)).map (fun q => q.amount)).sum

/-- `Payment.generate_receipt_number` (`payments/models.py`): both the
year/month in the receipt string and the count filter use
`timezone.now()` — the clock at save time (`now`), not the payment's own
`payment_date`.  The count tallies stored payments whose `payment_date`
falls in the clock's (year, month). -/
def Payment.generate_receipt_number (db : List Payment) (now : Date) : String :=
  let count := (db.filter (fun p =>
    p.payment_date.year == now.year && p.payment_date.month == now.month)).length + 1
  "RCP-" ++ toString now.year ++ padZero 2 now.month ++ "-" ++ padZero 5 count

/-- `Payment.clean` (`payments/models.py`).  `enr` and `course` are the
rows reached by the ORM traversals `self.enrollment` and
`self.enrollment.course` (the enrollment-presence check cannot fail here
because the linked row is passed in).  Checks: amount positive; the sum
of the other stored payments of the enrollment plus this amount must not
exceed the course price; payment date within
[enrollment date, today]. -/
def Payment.clean (db : List Payment) (now : Date) (enr : Enrollment)
    (course : Course) (p : Payment) : Except DjangoError Unit :=
  if p.amount ≤ 0 then
    Except.error (DjangoError.validation "amount"
      "Payment amount must be greater than zero.")
  else if course.price <
      ((db.filter (fun q => q.enrollment == p.enrollment && q.pk != p.pk)).map
        (fun q => q.amount)).sum + p.amount then
    Except.error (DjangoError.validation "amount"
      "Total payments cannot exceed course price.")
  else if Date.lt p.payment_date enr.enrollment_date then
    Except.error (DjangoError.validation "payment_date"
      "Payment date cannot be before enrollment date.")
  else if Date.lt now p.payment_date then
    Except.error (DjangoError.validation "payment_date"
      "Payment date cannot be in the future.")
  else Except.ok ()

/-- The receipt-assignment step at the top of `Payment.save`
(`payments/models.py`): a new payment (`pk` absent) without a receipt
number gets one generated from the current clock. -/
def Payment.prepare (db : List Payment) (now : Date) (p : Payment) : Payment :=
  if p.pk = none ∧ p.receipt_number = none then
    { p with receipt_number := some (Payment.generate_receipt_number db now) }
  else p

/-- `Payment.save` (`payments/models.py`): a new payment without a
receipt number gets one generated first (`Payment.prepare`), then `clean`
runs, then the row is written (insert for a new row, in-place update
otherwise).  On any validation error nothing is written. -/
def Payment.save (db : List Payment) (now : Date) (enr : Enrollment)
    (course : Course) (p : Payment) :
    Except DjangoError (List Payment × Payment) :=
  match Payment.clean db now enr course (Payment.prepare db now p) with
  | Except.error err => Except.error err
  | Except.ok () =>
    match (Payment.prepare db now p).pk with
    | none =>
        Except.ok (db ++
          [{ Payment.prepare db now p with pk := some (db.length + 1) }],
          { Payment.prepare db now p with pk := some (db.length + 1) })
    | some k =>
        Except.ok (db.map (fun x =>
          if x.pk == some k then Payment.prepare db now p else x),
          Payment.prepare db now p)

/-- The fields of `certifications.models.Certificate` used by the
modelled operations. -/
structure Certificate where
  pk : Option Nat
  enrollment : Nat
  certificate_number : Option String
  verification_code : Option String
  issue_date : Date
  is_public : Bool
deriving DecidableEq, Repr

/-- `Certificate.clean` (`certifications/models.py`): the enrollment must
be COMPLETED with a completion date; the issue date may not precede the
completion date; a new certificate is rejected when one already exists
for the enrollment. -/
def Certificate.clean (db : List Certificate) (enr : Enrollment)
    (c : Certificate) : Except DjangoError Unit :=
  if enr.status ≠ EnrollmentStatus.COMPLETED then
    Except.error (DjangoError.validation "enrollment"
      "Certificate can only be issued for completed enrollments.")
  else
    match enr.completion_date with
    | none =>
        Except.error (DjangoError.validation "enrollment"
          "Enrollment must have a completion date before issuing certificate.")
    | some completion =>
        if Date.lt c.issue_date completion then
          Except.error (DjangoError.validation "issue_date"
            "Issue date cannot be before completion date.")
        else if c.pk = none ∧ db.any (fun x => x.enrollment == c.enrollment) then
          Except.error (DjangoError.validation "enrollment"
            "A certificate already exists for this enrollment.")
        else Except.ok ()

/-- The number/code-assignment step at the top of `Certificate.save`
(`certifications/models.py`): for a new row (`pk` absent) a missing
certificate number is generated as `CERT-{year}-{seq:06d}` (year-scoped
count from the clock) and a missing verification code is set to a fresh
UUID (the parameter `fresh_uuid`). -/
def Certificate.assign_codes (db : List Certificate) (now : Date)
    (fresh_uuid : String) (c : Certificate) : Certificate :=
  let is_new := c.pk == none
  let c := if is_new && c.certificate_number == none then
      let year := now.year
      let count := (db.filter (fun x => x.issue_date.year == year)).length + 1
      let number := "CERT-" ++ toString year ++ "-" ++ padZero 6 count
      { c with certificate_number := some number }
    else c
  if is_new && c.verification_code == none then
    { c with verification_code := some fresh_uuid }
  else c

/-- `Certificate.save` (`certifications/models.py`): for a new row the
certificate number (`CERT-{year}-{seq:06d}`, year-scoped count) and the
verification code (a fresh UUID, here the parameter `fresh_uuid`) are
generated, then `clean` runs, then the row is written.  PDF generation
happens after the write with its errors caught and logged, so it never
affects persistence and is not modelled.  On a validation error nothing
is written. -/
def Certificate.save (db : List Certificate) (now : Date)
    (fresh_uuid : String) (enr : Enrollment) (c : Certificate) :
    Except DjangoError (List Certificate × Certificate) :=
  match Certificate.clean db enr (Certificate.assign_codes db now fresh_uuid c) with
  | Except.error err => Except.error err
  | Except.ok () =>
    match (Certificate.assign_codes db now fresh_uuid c).pk with
    | none =>
        Except.ok (db ++
          [{ Certificate.assign_codes db now fresh_uuid c with
              pk := some (db.length + 1) }],
          { Certificate.assign_codes db now fresh_uuid c with
              pk := some (db.length + 1) })
    | some k =>
        Except.ok (db.map (fun x =>
          if x.pk == some k then Certificate.assign_codes db now fresh_uuid c
          else x),
          Certificate.assign_codes db now fresh_uuid c)

/-- `Certificate.verify_certificate` (`certifications/models.py`): a
single `get(verification_code=..., is_public=True)`; a miss — whether the
code matches no stored certificate at all or only one whose
`is_public` is false — raises `DoesNotExist`, caught and turned into
`None`.  Verification codes are unique, so `find?` returns the unique
match when one exists. -/
def Certificate.verify_certificate (db : List Certificate) (code : String) :
    Option Certificate :=
  db.find? (fun c => c.verification_code == some code && c.is_public)

/-- One record of the `payment_data_list` given to
`bulk_payment_validation`: a Python dict where each required key may be
absent. -/
structure PaymentData where
  enrollment_id : Option Nat
  amount : Option ℚ
  payment_method : Option String
deriving DecidableEq, Repr

/-- A Python exception escaping a function (here: subscripting a dict at
a missing key). -/
inductive PyExn where
  | keyError (key : String)
deriving DecidableEq, Repr

/-- One entry of the `errors` list built by `bulk_payment_validation`:
the record's index and a message. -/
structure BulkErr where
  index : Nat
  error : String
deriving DecidableEq, Repr

/-- Price of the course linked to a course id.  Foreign-key integrity
guarantees the row exists; a dangling id yields 0. -/
def coursePriceOf (courses : List Course) (cid : Nat) : ℚ :=
  ((courses.find? (fun c => c.pk == cid)).map (fun c => c.price)).getD 0

/-- One iteration of the outer loop of `bulk_payment_validation`
(`payments/utils.py`).  The `continue` of the required-fields check binds
to the inner `for field in required_fields` loop, NOT the outer loop over
records: control always falls through to
`Enrollment.objects.get(id=payment_data['enrollment_id'])`, so a record
missing `enrollment_id` raises `KeyError` (not caught by the
`except Enrollment.DoesNotExist` handler), and a record missing `amount`
raises `KeyError` at `Decimal(str(payment_data['amount']))` (not caught
by the `except (ValueError, TypeError)` handler).  A raise discards the
errors accumulated so far, as in Python. -/
def bulk_validate_item (enrs : List Enrollment) (courses : List Course)
    (payments : List Payment) (i : Nat) (d : PaymentData) :
    Except PyExn (List BulkErr) :=
  let structural : List BulkErr :=
    (if d.enrollment_id == none then
      [⟨i, "Missing required field: enrollment_id"⟩] else []) ++
    (if d.amount == none then
      [⟨i, "Missing required field: amount"⟩] else []) ++
    (if d.payment_method == none then
      [⟨i, "Missing required field: payment_method"⟩] else [])
  match d.enrollment_id with
  | none => Except.error (PyExn.keyError "enrollment_id")
  | some eid =>
    match enrs.find? (fun e => e.pk == some eid) with
    | none =>
        Except.ok (structural ++ [⟨i, s!"Enrollment {eid} does not exist"⟩])
    | some e =>
      match d.amount with
      | none => Except.error (PyExn.keyError "amount")
      | some amount =>
        if amount ≤ 0 then
          Except.ok (structural ++
            [⟨i, "Payment amount must be greater than zero"⟩])
        else
          let outstanding := coursePriceOf courses e.course -
            enrollmentTotal payments eid
          if outstanding < amount then
            Except.ok (structural ++
              [⟨i, "Amount exceeds outstanding balance"⟩])
          else
            Except.ok structural

/-- The outer loop of `bulk_payment_validation`, accumulating per-record
errors in order. -/
def bulk_validation_go (enrs : List Enrollment) (courses : List Course)
    (payments : List Payment) : Nat → List PaymentData →
    Except PyExn (List BulkErr)
  | _, [] => Except.ok []
  | i, d :: rest =>
      match bulk_validate_item enrs courses payments i d with
      | Except.error ex => Except.error ex
      | Except.ok errs =>
        match bulk_validation_go enrs courses payments (i + 1) rest with
        | Except.error ex => Except.error ex
        | Except.ok more => Except.ok (errs ++ more)

/-- `bulk_payment_validation` (`payments/utils.py`): validates each
record, returning `(len(errors) == 0, errors)` — unless an uncaught
`KeyError` escapes (see `bulk_validate_item`). -/
def bulk_payment_validation (enrs : List Enrollment) (courses : List Course)
    (payments : List Payment) (payment_data_list : List PaymentData) :
    Except PyExn (Bool × List BulkErr) :=
  match bulk_validation_go enrs courses payments 0 payment_data_list with
  | Except.error ex => Except.error ex
  | Except.ok errors => Except.ok (errors.isEmpty, errors)

/-- `calculate_payment_plan` (`payments/utils.py`).  The only inexact
Decimal operation in the body is the division
`course_price / num_installments`, abstracted as the parameter `ddiv` so
the theorems hold for every rounding behaviour; Decimal sums and
differences at these magnitudes are exact.  The source builds
`[installment_amount] * n`, sums it, and adds any difference to the last
entry. -/
def calculate_payment_plan (ddiv : ℚ → ℤ → ℚ) (course_price : ℚ)
    (num_installments : ℤ) : List ℚ :=
  if num_installments ≤ 0 then []
  else
    let installment_amount := ddiv course_price num_installments
    let installments :=
      List.replicate num_installments.toNat installment_amount
    let total_calculated := installments.sum
    let difference := course_price - total_calculated
    if difference != 0 then
      installments.set (installments.length - 1)
        (installment_amount + difference)
    else
      installments

/-- Exact rational division, the ideal instance of `ddiv` (used by
concrete evaluations). -/
def exactDiv (a : ℚ) (n : ℤ) : ℚ := a / (n : ℚ)

/-! ### Concrete fixtures used by witnesses and counterexamples -/

/-- A course priced 100 with no prerequisites. -/
def sampleCourse : Course := ⟨20, "Algebra I", 100, []⟩

/-- A stored IN_PROGRESS enrollment of student 10 in `sampleCourse`,
enrolled 2025-03-01. -/
def sampleEnrollment : Enrollment :=
  ⟨some 1, 10, 20, Role.STUDENT, ⟨2025, 3, 1⟩, none,
    EnrollmentStatus.IN_PROGRESS, none⟩

/-- `sampleEnrollment` after completion on 2025-05-01. -/
def sampleCompleted : Enrollment :=
  { sampleEnrollment with
    status := EnrollmentStatus.COMPLETED
    completion_date := some ⟨2025, 5, 1⟩ }

/-- A new (unsaved) payment of 50 on `sampleEnrollment`, dated
2025-03-20. -/
def marchPayment : Payment := ⟨none, 1, 50, ⟨2025, 3, 20⟩, none⟩

/-- A stored non-public certificate carrying verification code
"code-1". -/
def privateCert : Certificate :=
  ⟨some 1, 1, some "CERT-2025-000001", some "code-1", ⟨2025, 6, 1⟩, false⟩

/-! ### Theorems -/

/-- C7: for every User, immediately after every save operation,
`is_staff` equals (role is one of ADMIN, REGISTRAR, ACADEMIC, FINANCE),
regardless of the value of `is_staff` before the save: the
`set_staff_status` post-save receiver rewrites the stored flag to the
role-derived value whenever it disagrees, and leaves it alone exactly
when it already agrees. -/
theorem user_staff_flag_invariant (u : User) :
    (User.save u).is_staff = u.is_staff_member := by
  cases u with
  | mk pk role is_active is_staff groups => cases role <;> cases is_staff <;> rfl

/-- C6: `verify_certificate code` returns a certificate exactly when a
stored certificate carries that code with `is_public = true`; when no
stored certificate carries the code, and when every certificate carrying
it has `is_public = false`, the result is the same `none` — the two
failure cases are indistinguishable to the caller. -/
theorem verify_certificate_privacy (db : List Certificate) (code : String) :
    (∀ c, Certificate.verify_certificate db code = some c →
      c ∈ db ∧ c.verification_code = some code ∧ c.is_public = true)
    ∧ ((∃ c ∈ db, c.verification_code = some code ∧ c.is_public = true) →
      (Certificate.verify_certificate db code).isSome = true)
    ∧ ((∀ c ∈ db, c.verification_code = some code → c.is_public = false) →
      Certificate.verify_certificate db code = none) := by
  unfold Certificate.verify_certificate
  refine ⟨?_, ?_, ?_⟩
  · intro c h
    have hp := List.find?_some h
    have hm := List.mem_of_find?_eq_some h
    simp only [Bool.and_eq_true, beq_iff_eq] at hp
    exact ⟨hm, hp.1, hp.2⟩
  · intro ⟨c, hc, h1, h2⟩
    rw [List.find?_isSome]
    exact ⟨c, hc, by simp [h1, h2]⟩
  · intro h
    rw [List.find?_eq_none]
    intro c hc
    simp only [Bool.and_eq_true, beq_iff_eq, not_and]
    intro hcode
    simp [h c hc hcode]

/-- Witness for C6: a certificate with a matching code but
`is_public = false`, and an empty store, both verify to `none`. -/
theorem verify_certificate_privacy_witness :
    Certificate.verify_certificate [privateCert] "code-1" = none ∧
    Certificate.verify_certificate [] "code-1" = none := by
  constructor
  · exact (verify_certificate_privacy [privateCert] "code-1").2.2
      (by intro c hc hcode; simp only [List.mem_singleton] at hc
          subst hc; rfl)
  · exact (verify_certificate_privacy [] "code-1").2.2 (by simp)

/-- Offending-prerequisite condition of C8: the proposed prerequisite is
the course itself, or already has the course among its own
prerequisites. -/
def offendingPrereq (c p : Course) : Prop :=
  p.pk = c.pk ∨ c.pk ∈ p.prerequisites

instance (c p : Course) : Decidable (offendingPrereq c p) := by
  unfold offendingPrereq; infer_instance

/-- The serializer loop errors exactly when some proposed prerequisite is
offending. -/
theorem validate_prereqs_loop_error_iff (inst : Course) (l : List Course) :
    (∃ s, validate_prereqs_loop inst l = Except.error s) ↔
      ∃ p ∈ l, offendingPrereq inst p := by
  induction l with
  | nil => simp [validate_prereqs_loop]
  | cons p rest ih =>
      simp only [validate_prereqs_loop]
      by_cases h1 : p.pk = inst.pk
      · simp [h1, offendingPrereq]
      · by_cases h2 : inst.pk ∈ p.prerequisites
        · have h2' : inst.is_prerequisite_for p = true := by
            unfold Course.is_prerequisite_for
            exact List.elem_iff.mpr h2
          simp [h1, h2', offendingPrereq, h2]
        · have h2' : ¬ inst.is_prerequisite_for p = true := by
            unfold Course.is_prerequisite_for
            simp [List.elem_iff, h2]
          simp only [if_neg h1, if_neg h2']
          rw [ih]
          constructor
          · rintro ⟨q, hq, hoff⟩
            exact ⟨q, List.mem_cons_of_mem p hq, hoff⟩
          · rintro ⟨q, hq, hoff⟩
            rcases List.mem_cons.mp hq with hq | hq
            · subst hq
              rcases hoff with hpk | hmem
              · exact absurd hpk h1
              · exact absurd hmem h2
            · exact ⟨q, hq, hoff⟩

/-- C8: prerequisite validation (same logic in `CourseSerializer` and
`CourseCreateUpdateSerializer`) fails with a validation error exactly
when the submitted prerequisites include the course itself or include a
course that already has the course among its own prerequisites; sets
free of both conditions are accepted unchanged.  On create the saved
instance does not exist yet (`self.instance` is `None`), so neither
condition can arise and every set is accepted. -/
theorem validate_prerequisites_two_node_cycle (inst : Option Course)
    (value : List Course) :
    ((∃ s, validate_prerequisites inst value = Except.error s) ↔
      (∃ c, inst = some c ∧ ∃ p ∈ value, offendingPrereq c p))
    ∧ ((∀ c, inst = some c → ∀ p ∈ value, ¬ offendingPrereq c p) →
      validate_prerequisites inst value = Except.ok value) := by
  cases inst with
  | none => simp [validate_prerequisites]
  | some c =>
      cases hloop : validate_prereqs_loop c value with
      | error s =>
          have hres : validate_prerequisites (some c) value = Except.error s := by
            simp only [validate_prerequisites, hloop]
          have hoff : ∃ p ∈ value, offendingPrereq c p :=
            (validate_prereqs_loop_error_iff c value).mp ⟨s, hloop⟩
          refine ⟨⟨fun _ => ⟨c, rfl, hoff⟩, fun _ => ⟨s, hres⟩⟩, ?_⟩
          intro h
          rcases hoff with ⟨p, hp, hpoff⟩
          exact absurd hpoff (h c rfl p hp)
      | ok u =>
          cases u
          have hres : validate_prerequisites (some c) value = Except.ok value := by
            simp only [validate_prerequisites, hloop]
          have hnooff : ¬ ∃ p ∈ value, offendingPrereq c p := by
            intro hoff
            rcases (validate_prereqs_loop_error_iff c value).mpr hoff with ⟨s, hs⟩
            rw [hloop] at hs
            cases hs
          refine ⟨⟨?_, ?_⟩, fun _ => hres⟩
          · rintro ⟨s, hs⟩
            rw [hres] at hs
            cases hs
          · rintro ⟨c', hc', p, hp, hpoff⟩
            injection hc' with hcc
            subst hcc
            exact absurd ⟨p, hp, hpoff⟩ hnooff

/-- Setting the last slot of a nonempty constant list splits it into the
untouched prefix and the new last element. -/
theorem replicate_set_last {α : Type} (a b : α) (m : Nat) :
    (List.replicate (m + 1) a).set m b = List.replicate m a ++ [b] := by
  induction m with
  | zero => rfl
  | succ n ih =>
      rw [List.replicate_succ a (n + 1)]
      show a :: (List.replicate (n + 1) a).set n b = _
      rw [ih, List.replicate_succ a n]
      rfl

/-- C10: for every division behaviour, every price and every number of
installments n ≥ 1, `calculate_payment_plan` returns exactly n
installments whose sum is exactly the price, all but the last equal to
the computed per-installment amount (any rounding difference is absorbed
by the final installment); for n ≤ 0 it returns the empty list. -/
theorem calculate_payment_plan_correct (ddiv : ℚ → ℤ → ℚ) (price : ℚ)
    (n : ℤ) :
    (n ≤ 0 → calculate_payment_plan ddiv price n = [])
    ∧ (1 ≤ n →
        (calculate_payment_plan ddiv price n).length = n.toNat
        ∧ (calculate_payment_plan ddiv price n).sum = price
        ∧ (calculate_payment_plan ddiv price n).dropLast =
            List.replicate (n.toNat - 1) (ddiv price n)) := by
  constructor
  · intro hn
    simp [calculate_payment_plan, hn]
  · intro hn
    have hpos : ¬ n ≤ 0 := by omega
    obtain ⟨k, hk⟩ : ∃ k, n.toNat = k + 1 := ⟨n.toNat - 1, by omega⟩
    set a := ddiv price n with ha
    have hsum : (List.replicate n.toNat a).sum = (n.toNat : ℚ) * a := by
      rw [List.sum_replicate, nsmul_eq_mul]
    unfold calculate_payment_plan
    rw [if_neg hpos]
    rw [hk]
    by_cases hdiff : price - (List.replicate (k + 1) a).sum ≠ 0
    · rw [if_pos (by simpa using hdiff)]
      rw [List.length_replicate, Nat.add_sub_cancel, replicate_set_last]
      refine ⟨by simp, ?_, ?_⟩
      · rw [List.sum_append, List.sum_replicate, nsmul_eq_mul, List.sum_cons,
          List.sum_nil, List.sum_replicate, nsmul_eq_mul]
        push_cast
        ring
      · rw [List.dropLast_concat]
    · rw [if_neg (by simpa using hdiff)]
      push_neg at hdiff
      have hprice : price = (List.replicate (k + 1) a).sum := by
        have := sub_eq_zero.mp hdiff
        linarith [this]
      refine ⟨by simp, hprice.symm, ?_⟩
      rw [List.replicate_succ' k a, List.dropLast_concat, Nat.add_sub_cancel]

/-- Witness for C10 at price 100 split into 3 installments with exact
division. -/
theorem calculate_payment_plan_correct_witness :
    (calculate_payment_plan exactDiv 100 3).length = 3
    ∧ (calculate_payment_plan exactDiv 100 3).sum = 100
    ∧ (calculate_payment_plan exactDiv 100 3).dropLast =
        List.replicate 2 (exactDiv 100 3) := by
  have h := (calculate_payment_plan_correct exactDiv 100 3).2 (by decide)
  exact h

/-- C9 is refuted by the code: `bulk_payment_validation` is not total.
A single record missing `enrollment_id` (the spec and the function's own
required-fields scan promise a returned error entry) instead raises
`KeyError: 'enrollment_id'` at the enrollment lookup, because the
`continue` statements of the required-fields scan bind to the inner loop
over field names, not the loop over records. -/
theorem bulk_payment_validation_keyerror :
    bulk_payment_validation [sampleEnrollment] [sampleCourse] []
      [⟨none, some 50, some "CASH"⟩] =
      Except.error (PyExn.keyError "enrollment_id")
    ∧ bulk_payment_validation [sampleEnrollment] [sampleCourse] []
      [⟨some 1, none, some "CASH"⟩] =
      Except.error (PyExn.keyError "amount")
    ∧ bulk_payment_validation [sampleEnrollment] [sampleCourse] []
      [⟨some 1, some 50, none⟩] =
      Except.ok (false,
        [⟨0, "Missing required field: payment_method"⟩]) := by
  refine ⟨rfl, rfl, ?_⟩
  simp only [bulk_payment_validation, bulk_validation_go, bulk_validate_item]
  norm_num [sampleEnrollment, sampleCourse, coursePriceOf, enrollmentTotal]

/-- C5: creating a certificate for an enrollment whose status is not
COMPLETED or whose completion date is absent raises a validation error;
since `save` returns before the write, no certificate is persisted in
that case. -/
theorem certificate_requires_completion (db : List Certificate) (now : Date)
    (fresh_uuid : String) (enr : Enrollment) (c : Certificate)
    (h : enr.status ≠ EnrollmentStatus.COMPLETED ∨ enr.completion_date = none) :
    ∃ f m, Certificate.save db now fresh_uuid enr c =
      Except.error (DjangoError.validation f m) := by
  have hclean : ∀ c' : Certificate, ∃ f m,
      Certificate.clean db enr c' = Except.error (DjangoError.validation f m) := by
    intro c'
    unfold Certificate.clean
    by_cases h1 : enr.status ≠ EnrollmentStatus.COMPLETED
    · exact ⟨_, _, if_pos h1⟩
    · push_neg at h1
      have h2 : enr.completion_date = none := by
        rcases h with h | h
        · exact absurd h1 h
        · exact h
      rw [if_neg (not_ne_iff.mpr h1), h2]
      exact ⟨_, _, rfl⟩
  obtain ⟨f, m, hc⟩ := hclean (Certificate.assign_codes db now fresh_uuid c)
  refine ⟨f, m, ?_⟩
  unfold Certificate.save
  rw [hc]


/-- Witness for C5: issuing against the IN_PROGRESS `sampleEnrollment`
errors. -/
theorem certificate_requires_completion_witness :
    ∃ f m, Certificate.save [] ⟨2025, 6, 1⟩ "uuid-1" sampleEnrollment
      ⟨none, 1, none, none, ⟨2025, 6, 1⟩, true⟩ =
      Except.error (DjangoError.validation f m) :=
  certificate_requires_completion [] ⟨2025, 6, 1⟩ "uuid-1" sampleEnrollment
    ⟨none, 1, none, none, ⟨2025, 6, 1⟩, true⟩ (Or.inl (by decide))

/-- `Payment.prepare` only touches the receipt number. -/
theorem Payment.prepare_pk (db : List Payment) (now : Date) (p : Payment) :
    (Payment.prepare db now p).pk = p.pk := by
  unfold Payment.prepare
  split <;> rfl

/-- `Payment.prepare` preserves the amount. -/
theorem Payment.prepare_amount (db : List Payment) (now : Date) (p : Payment) :
    (Payment.prepare db now p).amount = p.amount := by
  unfold Payment.prepare
  split <;> rfl

/-- `Payment.prepare` preserves the enrollment reference. -/
theorem Payment.prepare_enrollment (db : List Payment) (now : Date)
    (p : Payment) : (Payment.prepare db now p).enrollment = p.enrollment := by
  unfold Payment.prepare
  split <;> rfl

/-- For a new payment with no preset receipt number, `Payment.prepare`
assigns the generated one. -/
theorem Payment.prepare_receipt (db : List Payment) (now : Date) (p : Payment)
    (hnew : p.pk = none) (hrc : p.receipt_number = none) :
    (Payment.prepare db now p).receipt_number =
      some (Payment.generate_receipt_number db now) := by
  unfold Payment.prepare
  rw [if_pos ⟨hnew, hrc⟩]

/-- A successful `Payment.clean` bounds the would-be total by the course
price. -/
theorem Payment.clean_ok_bound (db : List Payment) (now : Date)
    (enr : Enrollment) (course : Course) (q : Payment)
    (h : Payment.clean db now enr course q = Except.ok ()) :
    ((db.filter (fun r => r.enrollment == q.enrollment && r.pk != q.pk)).map
      (fun r => r.amount)).sum + q.amount ≤ course.price := by
  unfold Payment.clean at h
  split_ifs at h with h1 h2 h3 h4
  exact le_of_not_lt h2

/-- C1: after any successful payment save the persisted total for the
payment's enrollment stays within the course price, and an attempted
save whose amount would push the existing total over the price returns a
validation error (so the offending payment is never persisted and the
stored payment set is unchanged). -/
theorem payment_sum_invariant (db : List Payment) (now : Date)
    (enr : Enrollment) (course : Course) (p : Payment)
    (hnew : p.pk = none) (hdb : ∀ q ∈ db, q.pk ≠ none) :
    (∀ db' saved, Payment.save db now enr course p = Except.ok (db', saved) →
      enrollmentTotal db' p.enrollment ≤ course.price)
    ∧ (course.price < enrollmentTotal db p.enrollment + p.amount →
      ∃ f m, Payment.save db now enr course p =
        Except.error (DjangoError.validation f m)) := by
  have hpk : (Payment.prepare db now p).pk = none := by
    rw [Payment.prepare_pk]; exact hnew
  have hamt := Payment.prepare_amount db now p
  have henr := Payment.prepare_enrollment db now p
  have hfil : db.filter (fun r =>
      r.enrollment == (Payment.prepare db now p).enrollment &&
      r.pk != (Payment.prepare db now p).pk)
      = db.filter (fun r => r.enrollment == p.enrollment) := by
    apply List.filter_congr
    intro r hr
    have hrpk := hdb r hr
    cases hr2 : r.pk with
    | none => exact absurd hr2 hrpk
    | some v => simp [henr, hpk, hr2]
  have htot : ((db.filter (fun r =>
      r.enrollment == (Payment.prepare db now p).enrollment &&
      r.pk != (Payment.prepare db now p).pk)).map (fun r => r.amount)).sum
      = enrollmentTotal db p.enrollment := by
    rw [hfil]; rfl
  constructor
  · intro db' saved hok
    unfold Payment.save at hok
    cases hc : Payment.clean db now enr course (Payment.prepare db now p) with
    | error err => rw [hc] at hok; cases hok
    | ok u =>
        cases u
        rw [hc] at hok
        have hbound := Payment.clean_ok_bound db now enr course _ hc
        rw [htot, hamt] at hbound
        unfold enrollmentTotal at hbound
        simp only [hpk] at hok
        injection hok with h1
        injection h1 with hdb' hsaved
        subst hdb'
        unfold enrollmentTotal
        rw [List.filter_append, List.map_append, List.sum_append]
        simp only [List.filter_cons, List.filter_nil, henr, beq_self_eq_true,
          if_true, List.map_cons, List.map_nil, List.sum_cons, List.sum_nil,
          add_zero, hamt]
        exact hbound
  · intro hover
    have hcl : ∃ m, Payment.clean db now enr course (Payment.prepare db now p)
        = Except.error (DjangoError.validation "amount" m) := by
      by_cases h0 : (Payment.prepare db now p).amount ≤ 0
      · refine ⟨"Payment amount must be greater than zero.", ?_⟩
        unfold Payment.clean
        rw [if_pos h0]
      · refine ⟨"Total payments cannot exceed course price.", ?_⟩
        unfold Payment.clean
        rw [if_neg h0]
        have hlt : course.price < ((db.filter (fun r =>
            r.enrollment == (Payment.prepare db now p).enrollment &&
            r.pk != (Payment.prepare db now p).pk)).map
              (fun r => r.amount)).sum + (Payment.prepare db now p).amount := by
          rw [htot, hamt]
          exact hover
        rw [if_pos hlt]
    obtain ⟨m, hm⟩ := hcl
    refine ⟨"amount", m, ?_⟩
    unfold Payment.save
    rw [hm]

/-- Fixture: an already-stored payment of 80 on `sampleEnrollment`. -/
def storedPayment : Payment :=
  ⟨some 1, 1, 80, ⟨2025, 3, 10⟩, some "RCP-202503-00001"⟩

/-- Witness for C1: with 80 already paid on a 100-priced course, a new
payment of 50 is rejected with a validation error. -/
theorem payment_sum_invariant_witness :
    ∃ f m, Payment.save [storedPayment] ⟨2025, 3, 25⟩ sampleEnrollment
      sampleCourse marchPayment =
      Except.error (DjangoError.validation f m) := by
  refine (payment_sum_invariant [storedPayment] ⟨2025, 3, 25⟩ sampleEnrollment
    sampleCourse marchPayment rfl (by decide)).2 ?_
  norm_num [enrollmentTotal, storedPayment, marchPayment, sampleCourse]

/-- C2 amended: the receipt number generated on save for a new payment is
`RCP-{year}{month:02d}-{seq:05d}` where (year, month) come from the
save-time clock (`timezone.now()`), not the payment's own payment date,
and seq is one plus the count of stored payments whose payment date falls
in that clock (year, month). -/
theorem receipt_number_from_clock (db : List Payment) (now : Date)
    (enr : Enrollment) (course : Course) (p : Payment)
    (hnew : p.pk = none) (hrc : p.receipt_number = none) :
    ∀ db' saved, Payment.save db now enr course p = Except.ok (db', saved) →
      saved.receipt_number = some ("RCP-" ++ toString now.year ++
        padZero 2 now.month ++ "-" ++
        padZero 5 ((db.filter (fun q =>
          q.payment_date.year == now.year &&
          q.payment_date.month == now.month)).length + 1)) := by
  intro db' saved hok
  have hpk : (Payment.prepare db now p).pk = none := by
    rw [Payment.prepare_pk]; exact hnew
  unfold Payment.save at hok
  cases hc : Payment.clean db now enr course (Payment.prepare db now p) with
  | error err => rw [hc] at hok; cases hok
  | ok u =>
      cases u
      rw [hc] at hok
      simp only [hpk] at hok
      injection hok with h1
      injection h1 with hdb2 hsaved
      subst hsaved
      show (Payment.prepare db now p).receipt_number = _
      rw [Payment.prepare_receipt db now p hnew hrc]
      rfl

/-- Fixture: the save-time clock for the C2 counterexample (April 2025),
a month after `marchPayment`'s payment date. -/
def aprilClock : Date := ⟨2025, 4, 15⟩

/-- Fixture: `marchPayment` as persisted when saved under `aprilClock`. -/
def marchPaymentSavedApril : Payment :=
  ⟨some 1, 1, 50, ⟨2025, 3, 20⟩, some "RCP-202504-00001"⟩

/-- Fixture: a save-time clock inside March 2025. -/
def marchClock : Date := ⟨2025, 3, 25⟩

/-- Fixture: `marchPayment` as persisted when saved under `marchClock`. -/
def marchPaymentSavedMarch : Payment :=
  ⟨some 1, 1, 50, ⟨2025, 3, 20⟩, some "RCP-202503-00001"⟩

/-- C2 as frozen is refuted: a payment whose payment date lies in March
2025, saved while the clock reads April 2025 (allowed — only future
payment dates are rejected), is persisted with receipt number
RCP-202504-00001, keyed to the clock month, not RCP-202503-00001 as the
payment-date reading of the claim requires. -/
theorem receipt_number_claim_counterexample :
    Payment.save [] aprilClock sampleEnrollment sampleCourse marchPayment =
      Except.ok ([marchPaymentSavedApril], marchPaymentSavedApril)
    ∧ marchPaymentSavedApril.payment_date.year = 2025
    ∧ marchPaymentSavedApril.payment_date.month = 3
    ∧ marchPaymentSavedApril.receipt_number = some "RCP-202504-00001"
    ∧ ("RCP-202504-00001" : String) ≠ "RCP-202503-00001" := by
  have hprep : Payment.prepare [] aprilClock marchPayment =
      { marchPayment with receipt_number := some "RCP-202504-00001" } := by
    unfold Payment.prepare
    rw [if_pos ⟨rfl, rfl⟩]
    rfl
  have hclean : Payment.clean [] aprilClock sampleEnrollment sampleCourse
      (Payment.prepare [] aprilClock marchPayment) = Except.ok () := by
    rw [hprep]
    unfold Payment.clean
    rw [if_neg (by norm_num [marchPayment]),
        if_neg (by norm_num [marchPayment, sampleCourse]),
        if_neg (by decide), if_neg (by decide)]
  refine ⟨?_, rfl, rfl, rfl, by decide⟩
  unfold Payment.save
  rw [hclean, hprep]
  rfl

/-- Witness for C2 (amended): the first payment recorded while the clock
reads March 2025 receives RCP-202503-00001. -/
theorem receipt_number_from_clock_witness :
    Payment.save [] marchClock sampleEnrollment sampleCourse marchPayment =
      Except.ok ([marchPaymentSavedMarch], marchPaymentSavedMarch)
    ∧ marchPaymentSavedMarch.receipt_number = some "RCP-202503-00001" := by
  have hprep : Payment.prepare [] marchClock marchPayment =
      { marchPayment with receipt_number := some "RCP-202503-00001" } := by
    unfold Payment.prepare
    rw [if_pos ⟨rfl, rfl⟩]
    rfl
  have hclean : Payment.clean [] marchClock sampleEnrollment sampleCourse
      (Payment.prepare [] marchClock marchPayment) = Except.ok () := by
    rw [hprep]
    unfold Payment.clean
    rw [if_neg (by norm_num [marchPayment]),
        if_neg (by norm_num [marchPayment, sampleCourse]),
        if_neg (by decide), if_neg (by decide)]
  have hsave : Payment.save [] marchClock sampleEnrollment sampleCourse
      marchPayment =
      Except.ok ([marchPaymentSavedMarch], marchPaymentSavedMarch) := by
    unfold Payment.save
    rw [hclean, hprep]
    rfl
  refine ⟨hsave, ?_⟩
  have h := receipt_number_from_clock [] marchClock sampleEnrollment
    sampleCourse marchPayment rfl rfl [marchPaymentSavedMarch]
    marchPaymentSavedMarch hsave
  rw [h]
  rfl

/-- Fixture: `sampleEnrollment` cancelled. -/
def cancelledEnrollment : Enrollment :=
  { sampleEnrollment with status := EnrollmentStatus.CANCELLED }

/-- Fixture: a fresh (unsaved) re-enrollment attempt for the same
(student, course) pair as `sampleEnrollment`. -/
def reenrollment : Enrollment := { sampleEnrollment with pk := none }

/-- C3 as frozen is refuted: with only a CANCELLED enrollment stored for
the (student, course) pair, the application-level `clean` accepts the
re-enrollment, but creation still fails — the storage layer's
unconditional `unique_together = ['student', 'course']` constraint
rejects the insert with an integrity error, so creating a new enrollment
for the pair does not succeed. -/
theorem reenrollment_after_cancellation_counterexample :
    cancelledEnrollment.status = EnrollmentStatus.CANCELLED
    ∧ Enrollment.clean [cancelledEnrollment] reenrollment = Except.ok ()
    ∧ Enrollment.save [cancelledEnrollment] reenrollment =
        Except.error (DjangoError.integrity
          "UNIQUE constraint failed: enrollments_enrollment.student_id, enrollments_enrollment.course_id") := by
  refine ⟨rfl, rfl, rfl⟩

/-- C3 amended: for a fresh enrollment (typical creation state:
IN_PROGRESS, no completion date, STUDENT role), the application-level
`clean` accepts exactly when every stored enrollment for the
(student, course) pair is CANCELLED and rejects with a validation error
when a non-CANCELLED one exists; but the save as a whole fails (with
some error — the storage unique constraint at minimum) whenever any
stored enrollment for the pair exists, and succeeds exactly when none
does. -/
theorem enrollment_unique_pair_amended (db : List Enrollment) (e : Enrollment)
    (hnew : e.pk = none) (hrole : e.student_role = Role.STUDENT)
    (hst : e.status = EnrollmentStatus.IN_PROGRESS)
    (hcd : e.completion_date = none) :
    ((∀ x ∈ db, x.student = e.student → x.course = e.course →
        x.status = EnrollmentStatus.CANCELLED) →
      Enrollment.clean db e = Except.ok ())
    ∧ ((∃ x ∈ db, x.student = e.student ∧ x.course = e.course ∧
        x.status ≠ EnrollmentStatus.CANCELLED) →
      Enrollment.save db e = Except.error (DjangoError.validation "course"
        "Student is already enrolled in this course."))
    ∧ ((∃ x ∈ db, x.student = e.student ∧ x.course = e.course) →
      ∃ err, Enrollment.save db e = Except.error err)
    ∧ ((∀ x ∈ db, ¬ (x.student = e.student ∧ x.course = e.course)) →
      Enrollment.save db e =
        Except.ok (db ++ [{ e with pk := some (db.length + 1) }],
          { e with pk := some (db.length + 1) })) := by
  have hclean_ok : (∀ x ∈ db, x.student = e.student → x.course = e.course →
      x.status = EnrollmentStatus.CANCELLED) →
      Enrollment.clean db e = Except.ok () := by
    intro h
    have hany : db.any (fun x => x.student == e.student &&
        x.course == e.course && x.status != EnrollmentStatus.CANCELLED)
        = false := by
      rw [List.any_eq_false]
      intro x hx
      simp only [Bool.and_eq_true, beq_iff_eq, bne_iff_ne, ne_eq,
        not_and]
      rintro ⟨hs, hc⟩
      simp [h x hx hs hc]
    unfold Enrollment.clean
    rw [if_neg (by simp [hrole]), if_neg (by simp [hany]),
      if_neg (by simp [hst]), hcd]
  refine ⟨hclean_ok, ?_, ?_, ?_⟩
  · rintro ⟨x, hx, hs, hc, hne⟩
    have hany : db.any (fun x => x.student == e.student &&
        x.course == e.course && x.status != EnrollmentStatus.CANCELLED)
        = true := by
      rw [List.any_eq_true]
      exact ⟨x, hx, by simp [hs, hc, hne]⟩
    have hcl : Enrollment.clean db e = Except.error (DjangoError.validation
        "course" "Student is already enrolled in this course.") := by
      unfold Enrollment.clean
      rw [if_neg (by simp [hrole]), if_pos ⟨hnew, hany⟩]
    unfold Enrollment.save
    rw [hcl]
  · intro hex
    have hany2 : db.any (fun x => x.student == e.student &&
        x.course == e.course) = true := by
      rw [List.any_eq_true]
      rcases hex with ⟨x, hx, hs, hc⟩
      exact ⟨x, hx, by simp [hs, hc]⟩
    cases hc : Enrollment.clean db e with
    | error err =>
        refine ⟨err, ?_⟩
        unfold Enrollment.save
        rw [hc]
    | ok u =>
        cases u
        refine ⟨DjangoError.integrity
          "UNIQUE constraint failed: enrollments_enrollment.student_id, enrollments_enrollment.course_id", ?_⟩
        unfold Enrollment.save
        rw [hc]
        simp only [hnew]
        rw [if_pos hany2]
  · intro h
    have hcl := hclean_ok (fun x hx hs hc => absurd ⟨hs, hc⟩ (h x hx))
    have hany2 : db.any (fun x => x.student == e.student &&
        x.course == e.course) = false := by
      rw [List.any_eq_false]
      intro x hx
      simp only [Bool.and_eq_true, beq_iff_eq, not_and]
      intro hs hc
      exact absurd ⟨hs, hc⟩ (h x hx)
    unfold Enrollment.save
    rw [hcl]
    simp only [hnew]
    rw [if_neg (by simp [hany2])]

/-- Witness for C3 (amended): the concrete re-enrollment attempt after a
cancellation passes `clean` yet the save errors. -/
theorem enrollment_unique_pair_amended_witness :
    Enrollment.clean [cancelledEnrollment] reenrollment = Except.ok ()
    ∧ (∃ err, Enrollment.save [cancelledEnrollment] reenrollment =
        Except.error err) := by
  have h := enrollment_unique_pair_amended [cancelledEnrollment] reenrollment
    rfl rfl rfl rfl
  exact ⟨h.1 (by decide), h.2.2.1 (by decide)⟩

/-- The row written by a successful `mark_completed`: status COMPLETED,
completion date today, verifier recorded when supplied. -/
def completedRow (e : Enrollment) (today : Date) (v : Option Nat) :
    Enrollment :=
  { e with
    status := EnrollmentStatus.COMPLETED
    completion_date := some today
    verified_by := match v with
      | some u => some u
      | none => e.verified_by }

/-- Fixture: an IN_PROGRESS enrollment whose enrollment date lies in the
future relative to the `mark_completed` call. -/
def futureEnrollment : Enrollment :=
  { sampleEnrollment with enrollment_date := ⟨2026, 1, 1⟩ }

/-- C4 as frozen is refuted on the IN_PROGRESS success clause: for an
IN_PROGRESS enrollment whose enrollment date is after today,
`mark_completed` does not succeed — the `save` it performs re-runs
`clean`, which rejects completion_date (= today) earlier than the
enrollment date. -/
theorem mark_completed_claim_counterexample :
    futureEnrollment.status = EnrollmentStatus.IN_PROGRESS
    ∧ Enrollment.mark_completed [futureEnrollment] futureEnrollment
        ⟨2025, 5, 1⟩ none =
      Except.error (DjangoError.validation "completion_date"
        "Completion date cannot be before enrollment date.") := by
  refine ⟨rfl, rfl⟩

/-- C4 amended: `mark_completed` errors with "already completed" on a
COMPLETED enrollment and "cannot complete a cancelled enrollment" on a
CANCELLED one; on an IN_PROGRESS enrollment it succeeds — provided the
re-validation run by `save` passes, i.e. today is not before the
enrollment date and the student's role is STUDENT — writing status
COMPLETED, completion date today, and the verifier when one is
supplied. -/
theorem mark_completed_amended (db : List Enrollment) (e : Enrollment)
    (today : Date) (v : Option Nat) (k : Nat)
    (hpk : e.pk = some k) (hrole : e.student_role = Role.STUDENT)
    (hdate : Date.lt today e.enrollment_date = false) :
    (e.status = EnrollmentStatus.COMPLETED →
      Enrollment.mark_completed db e today v = Except.error
        (DjangoError.validation "__all__" "Enrollment is already completed."))
    ∧ (e.status = EnrollmentStatus.CANCELLED →
      Enrollment.mark_completed db e today v = Except.error
        (DjangoError.validation "__all__"
          "Cannot complete a cancelled enrollment."))
    ∧ (e.status = EnrollmentStatus.IN_PROGRESS →
      Enrollment.mark_completed db e today v = Except.ok
        (db.map (fun x => if x.pk == some k then completedRow e today v
          else x), completedRow e today v)
      ∧ (completedRow e today v).status = EnrollmentStatus.COMPLETED
      ∧ (completedRow e today v).completion_date = some today
      ∧ (∀ u, v = some u → (completedRow e today v).verified_by = some u)
      ∧ (v = none → (completedRow e today v).verified_by = e.verified_by)) := by
  refine ⟨?_, ?_, ?_⟩
  · intro hs
    unfold Enrollment.mark_completed
    rw [if_pos hs]
  · intro hs
    unfold Enrollment.mark_completed
    rw [if_neg (by simp [hs]), if_pos hs]
  · intro hs
    have hcl : Enrollment.clean db (completedRow e today v) =
        Except.ok () := by
      unfold Enrollment.clean completedRow
      simp [hrole, hpk, hdate]
    have hcpk : (completedRow e today v).pk = some k := hpk
    refine ⟨?_, rfl, rfl, ?_, ?_⟩
    · unfold Enrollment.mark_completed
      rw [if_neg (by simp [hs]), if_neg (by simp [hs])]
      show Enrollment.save db (completedRow e today v) = _
      unfold Enrollment.save
      rw [hcl]
      simp only [hcpk]
    · intro u hu
      subst hu
      rfl
    · intro hv
      subst hv
      rfl

/-- Witness for C4 (amended): completing the IN_PROGRESS
`sampleEnrollment` on 2025-05-01 with verifier 7 writes the completed
row. -/
theorem mark_completed_amended_witness :
    Enrollment.mark_completed [sampleEnrollment] sampleEnrollment
      ⟨2025, 5, 1⟩ (some 7) =
      Except.ok ([completedRow sampleEnrollment ⟨2025, 5, 1⟩ (some 7)],
        completedRow sampleEnrollment ⟨2025, 5, 1⟩ (some 7))
    ∧ (completedRow sampleEnrollment ⟨2025, 5, 1⟩ (some 7)).status =
        EnrollmentStatus.COMPLETED
    ∧ (completedRow sampleEnrollment ⟨2025, 5, 1⟩ (some 7)).completion_date =
        some ⟨2025, 5, 1⟩ := by
  have h := (mark_completed_amended [sampleEnrollment] sampleEnrollment
    ⟨2025, 5, 1⟩ (some 7) 1 rfl rfl (by decide)).2.2 rfl
  refine ⟨?_, h.2.1, h.2.2.1⟩
  rw [h.1]
  rfl

/-- Fixture: a course that lists `sampleCourse` among its
prerequisites. -/
def courseB : Course := ⟨21, "Algebra II", 120, [20]⟩

/-- Witness for C8: proposing `courseB` (which already requires
`sampleCourse`) as a prerequisite of `sampleCourse` is rejected, and an
empty prerequisite set is accepted. -/
theorem validate_prerequisites_two_node_cycle_witness :
    (∃ s, validate_prerequisites (some sampleCourse) [courseB] =
      Except.error s)
    ∧ validate_prerequisites (some courseB) [] = Except.ok [] := by
  constructor
  · exact (validate_prerequisites_two_node_cycle (some sampleCourse)
      [courseB]).1.mpr
      ⟨sampleCourse, rfl, courseB, by decide, Or.inr (by decide)⟩
  · exact (validate_prerequisites_two_node_cycle (some courseB) []).2
      (by intro c hc p hp; exact absurd hp (List.not_mem_nil p))

end ITA
